import Mathlib

/-!
Verification of the pcp repository (a Rust PCP / RFC 6887 client) against its
natural-language specification.  The Rust source is shallowly embedded:
byte buffers are lists of naturals (each < 256 where it matters), machine
integers are naturals with explicit big-endian byte splitting, fallible
parsing returns an error sum, and a distinguished outer Option models runtime
panics (out-of-bounds indexing / failed unwraps).  Every definition is
translated from a named function of the source tree; the doc comment of each
definition names its origin.
-/

set_option maxRecDepth 10000

/-- A wire buffer: a list of byte values. -/
abbrev Bytes := List Nat

/-- Big-endian encoding of a 16-bit value (`u16::to_be_bytes`). -/
def u16be (v : Nat) : Bytes := [v / 256 % 256, v % 256]

/-- Big-endian encoding of a 32-bit value (`u32::to_be_bytes`). -/
def u32be (v : Nat) : Bytes :=
  [v / 16777216 % 256, v / 65536 % 256, v / 256 % 256, v % 256]

/-- Big-endian read of two bytes at offset `i` (`u16::from_be_bytes`); `none`
models a Rust panic from out-of-bounds indexing. -/
def readU16 (s : Bytes) (i : Nat) : Option Nat :=
  match s[i]?, s[i+1]? with
  | some a, some b => some (a * 256 + b)
  | _, _ => none

/-- Big-endian read of four bytes at offset `i` (`u32::from_be_bytes`). -/
def readU32 (s : Bytes) (i : Nat) : Option Nat :=
  match s[i]?, s[i+1]?, s[i+2]?, s[i+3]? with
  | some a, some b, some c, some d =>
      some (((a * 256 + b) * 256 + c) * 256 + d)
  | _, _, _, _ => none

/-- Extract the 16 address bytes starting at offset `i` (the `[u8; 16]`
reads used for `Ipv6Addr` fields). -/
def readAddr (s : Bytes) (i : Nat) : Bytes := (s.drop i).take 16

-- ======================= enums from src/types =======================

/-- `OpCode` from src/src/types/op_code.rs: Announce = 0, Map = 1, Peer = 2. -/
inductive OpCode where
  | announce
  | map
  | peer
deriving DecidableEq, Repr

/-- The discriminant written on the wire (`opcode as u8`). -/
def OpCode.toByte : OpCode → Nat
  | .announce => 0
  | .map => 1
  | .peer => 2

/-- `OptionCode` from src/src/types/option_code.rs:
ThirdParty = 1, PreferFailure = 2, Filter = 3. -/
inductive OptionCode where
  | thirdParty
  | preferFailure
  | filter
deriving DecidableEq, Repr

/-- The discriminant written on the wire (`OptionCode as u8`). -/
def OptionCode.toByte : OptionCode → Nat
  | .thirdParty => 1
  | .preferFailure => 2
  | .filter => 3

/-- `OptionCode::try_from` (src/src/types/option_code.rs). -/
def OptionCode.ofByte (n : Nat) : Option OptionCode :=
  match n with
  | 1 => some .thirdParty
  | 2 => some .preferFailure
  | 3 => some .filter
  | _ => none

/-- `OpCode::try_from` (src/src/types/op_code.rs). -/
def OpCode.ofByte (n : Nat) : Option OpCode :=
  match n with
  | 0 => some .announce
  | 1 => some .map
  | 2 => some .peer
  | _ => none

/-- `OpCode::valid_options` / `valid_option` (src/src/types/op_code.rs):
Announce admits no options, Map admits ThirdParty, PreferFailure and Filter,
Peer admits only ThirdParty. -/
def OpCode.validOption : OpCode → OptionCode → Bool
  | .announce, _ => false
  | .map, _ => true
  | .peer, .thirdParty => true
  | .peer, _ => false

/-- `ResultCode::try_from` accepts exactly the discriminants 0..=13
(src/src/types/result_code.rs); the value is kept as its discriminant,
0 being `Success`. -/
def isResultCode (n : Nat) : Bool := n ≤ 13

/-- `ProtocolNumber::try_from` accepts exactly the discriminants 0..=143
together with 253 and 254 (src/src/types/protocols.rs); the value is kept as
its discriminant, 0 being `Hopopt` ("any protocol"). -/
def isProtocolNumber (n : Nat) : Bool := n ≤ 143 || n == 253 || n == 254

/-- `ParsingError` from src/src/types/parsing_error.rs. -/
inductive ParsingError where
  | notAnOpCode (n : Nat)
  | notAnOptionCode (n : Nat)
  | notAResultCode (n : Nat)
  | notAProtocolNumber (n : Nat)
  | invalidSliceLength (n : Nat)
  | invalidOptionLength (c : OptionCode) (n : Nat)
  | versionNotSupported (n : Nat)
  | notAResponse
  | notARequest
  | invalidPrefix (n : Nat)
  | invalidOption (o : OpCode) (c : OptionCode)
  | packetTooBig (n : Nat)
deriving DecidableEq, Repr

-- ======================= request headers and payloads =======================

/-- `RequestHeader` (src/src/types/base.rs and src/src/types/headers/request.rs).
The client address is kept as its 16 IPv6 octets (an IPv4 address enters as
its IPv4-mapped form, as both Rust encoders produce). -/
structure RequestHeader where
  version : Nat
  opcode : OpCode
  lifetime : Nat
  address : Bytes
deriving DecidableEq, Repr

/-- `RequestHeader::SIZE` = 24. -/
def RequestHeader.SIZE : Nat := 24

/-- `RequestHeader::copy_to` (src/src/types/base.rs, lines 154-160), applied
to a zeroed buffer: version, opcode byte, two reserved zero bytes, the
lifetime big-endian at 4..8, the address at 8..24. -/
def RequestHeader.copyTo (h : RequestHeader) : Bytes :=
  [h.version, h.opcode.toByte, 0, 0] ++ u32be h.lifetime ++ h.address

/-- `RequestHeader::bytes` (src/src/types/headers/request.rs, lines 82-100):
the same layout as `copy_to`. -/
def RequestHeader.bytes (h : RequestHeader) : Bytes :=
  [h.version, h.opcode.toByte, 0, 0] ++ u32be h.lifetime ++ h.address

/-- `RequestHeader::try_from` (src/src/types/base.rs, lines 163-182):
requires at least 24 bytes, version byte exactly 2, a clear R bit, and a
known opcode.  The outer Option models panics (none occur: all reads are
guarded by the length check). -/
def RequestHeader.tryFrom (s : Bytes) : Option (Except ParsingError RequestHeader) :=
  if s.length < RequestHeader.SIZE then
    some (.error (.invalidSliceLength s.length))
  else
    match s[0]?, s[1]? with
    | some b0, some b1 =>
        if b0 ≠ 2 then some (.error (.versionNotSupported b0))
        else if b1 / 128 % 2 ≠ 0 then some (.error .notARequest)
        else
          match OpCode.ofByte b1 with
          | none => some (.error (.notAnOpCode b1))
          | some opcode =>
              match readU32 s 4 with
              | none => none
              | some lt => some (.ok ⟨b0, opcode, lt, readAddr s 8⟩)
    | _, _ => none

/-- `MapRequestPayload` (src/src/types/base.rs lines 435-447 and
src/src/types/payloads/map_request.rs lines 62-68).  The protocol is kept as
its wire discriminant. -/
structure MapRequestPayload where
  nonce : Bytes
  protocol : Nat
  internal_port : Nat
  external_port : Nat
  external_addr : Bytes
deriving DecidableEq, Repr

/-- `MapRequestPayload::SIZE` = 36. -/
def MapRequestPayload.SIZE : Nat := 36

/-- `MapRequestPayload::copy_to` (src/src/types/base.rs, lines 476-483),
applied to a zeroed buffer: nonce at 0..12, protocol at 12, three reserved
zero bytes, then `external_port` at 16..18 and `internal_port` at 18..20
(exactly as the source writes them), address at 20..36. -/
def MapRequestPayload.copyTo (p : MapRequestPayload) : Bytes :=
  p.nonce ++ [p.protocol, 0, 0, 0] ++ u16be p.external_port ++
    u16be p.internal_port ++ p.external_addr

/-- `MapRequestPayload::bytes` (src/src/types/payloads/map_request.rs,
lines 95-115): nonce, protocol, three reserved zero bytes, then
`internal_port` at 16..18 and `external_port` at 18..20, address at 20..36. -/
def MapRequestPayload.bytes (p : MapRequestPayload) : Bytes :=
  p.nonce ++ [p.protocol, 0, 0, 0] ++ u16be p.internal_port ++
    u16be p.external_port ++ p.external_addr

/-- `MapRequestPayload::try_from` (src/src/types/base.rs, lines 486-500):
requires at least 36 bytes and a known protocol number at byte 12; reads
`external_port` from 16..18 and `internal_port` from 18..20 (exactly as the
source does). -/
def MapRequestPayload.tryFrom (s : Bytes) : Option (Except ParsingError MapRequestPayload) :=
  if s.length < MapRequestPayload.SIZE then
    some (.error (.invalidSliceLength s.length))
  else
    match s[12]? with
    | none => none
    | some pb =>
        if !isProtocolNumber pb then some (.error (.notAProtocolNumber pb))
        else
          match readU16 s 16, readU16 s 18 with
          | some ep, some ip =>
              some (.ok ⟨s.take 12, pb, ip, ep, readAddr s 20⟩)
          | _, _ => none

/-- `PeerRequestPayload` (src/src/types/base.rs lines 611-620 and
src/src/types/payloads/peer_request.rs lines 40-48). -/
structure PeerRequestPayload where
  nonce : Bytes
  protocol : Nat
  internal_port : Nat
  external_port : Nat
  external_addr : Bytes
  remote_port : Nat
  remote_addr : Bytes
deriving DecidableEq, Repr

/-- `PeerRequestPayload::SIZE` = 56. -/
def PeerRequestPayload.SIZE : Nat := 56

/-- `PeerRequestPayload::copy_to` (src/src/types/base.rs, lines 653-662),
applied to a zeroed buffer: nonce, protocol, reserved, `internal_port` at
16..18, `external_port` at 18..20 (the peer writer uses the documented
order), external address, remote port, two reserved bytes, remote address. -/
def PeerRequestPayload.copyTo (p : PeerRequestPayload) : Bytes :=
  p.nonce ++ [p.protocol, 0, 0, 0] ++ u16be p.internal_port ++
    u16be p.external_port ++ p.external_addr ++ u16be p.remote_port ++
    [0, 0] ++ p.remote_addr

/-- `PeerRequestPayload::bytes` (src/src/types/payloads/peer_request.rs,
lines 79-110): same layout as `PeerRequestPayload.copyTo`. -/
def PeerRequestPayload.bytes (p : PeerRequestPayload) : Bytes :=
  p.nonce ++ [p.protocol, 0, 0, 0] ++ u16be p.internal_port ++
    u16be p.external_port ++ p.external_addr ++ u16be p.remote_port ++
    [0, 0] ++ p.remote_addr

/-- `PeerRequestPayload::try_from` (src/src/types/base.rs, lines 665-681). -/
def PeerRequestPayload.tryFrom (s : Bytes) : Option (Except ParsingError PeerRequestPayload) :=
  if s.length < PeerRequestPayload.SIZE then
    some (.error (.invalidSliceLength s.length))
  else
    match s[12]? with
    | none => none
    | some pb =>
        if !isProtocolNumber pb then some (.error (.notAProtocolNumber pb))
        else
          match readU16 s 16, readU16 s 18, readU16 s 36 with
          | some ip, some ep, some rp =>
              some (.ok ⟨s.take 12, pb, ip, ep, readAddr s 20, rp, readAddr s 40⟩)
          | _, _, _ => none

-- ======================= packet options =======================

/-- `OptionHeader` (src/src/types/headers/option.rs, lines 40-43). -/
structure OptionHeader where
  code : OptionCode
  length : Nat
deriving DecidableEq, Repr

/-- `OptionHeader::filter` (src/src/types/headers/option.rs): code Filter,
length `FilterOptionPayload::SIZE` = 20. -/
def OptionHeader.filter : OptionHeader := ⟨.filter, 20⟩

/-- `OptionHeader::third_party`: code ThirdParty, length 16. -/
def OptionHeader.thirdParty : OptionHeader := ⟨.thirdParty, 16⟩

/-- `OptionHeader::prefer_failure`: code PreferFailure, length 0. -/
def OptionHeader.preferFailure : OptionHeader := ⟨.preferFailure, 0⟩

/-- `OptionHeader::bytes` (src/src/types/headers/option.rs, lines 74-77):
code byte, reserved zero, big-endian length. -/
def OptionHeader.bytes (h : OptionHeader) : Bytes :=
  h.code.toByte :: 0 :: u16be h.length

/-- `OptionPayload` (src/src/types/payloads/mod.rs, lines 24-28).  A filter
payload carries prefix length, remote port and the 16 remote address octets;
a third-party payload carries 16 address octets. -/
inductive OptionPayload where
  | filter (prefixLen : Nat) (remote_port : Nat) (remote_addr : Bytes)
  | thirdParty (address : Bytes)
  | preferFailure
deriving DecidableEq, Repr

/-- `OptionPayload::size` (src/src/types/payloads/mod.rs, lines 32-38):
the constant size of each option payload kind. -/
def OptionPayload.size : OptionPayload → Nat
  | .filter _ _ _ => 20
  | .thirdParty _ => 16
  | .preferFailure => 0

/-- `FilterOptionPayload::bytes` (src/src/types/payloads/filter_option.rs,
lines 60-73): reserved zero byte, prefix, big-endian remote port, the 16
remote address octets. -/
def filterOptionBytes (prefixLen remote_port : Nat) (remote_addr : Bytes) : Bytes :=
  0 :: prefixLen :: u16be remote_port ++ remote_addr

/-- Serialized form of an option payload: `FilterOptionPayload::bytes`,
`ThirdPartyOptionPayload::bytes` (the 16 address octets), or nothing for
PreferFailure. -/
def OptionPayload.bytes : OptionPayload → Bytes
  | .filter pl rp ra => filterOptionBytes pl rp ra
  | .thirdParty a => a
  | .preferFailure => []

/-- `PacketOption` (src/src/types/option.rs, lines 11-14). -/
structure PacketOption where
  header : OptionHeader
  payload : OptionPayload
deriving DecidableEq, Repr

/-- `PacketOption::filter` (src/src/types/option.rs lines 22-27 /
src/src/types/mod.rs lines 76-81): a filter option with the given prefix,
port and address; no validity check is performed on the prefix. -/
def PacketOption.filter (prefixLen remote_port : Nat) (remote_addr : Bytes) : PacketOption :=
  ⟨OptionHeader.filter, .filter prefixLen remote_port remote_addr⟩

/-- `PacketOption::third_party` (src/src/types/option.rs, lines 33-38). -/
def PacketOption.thirdParty (address : Bytes) : PacketOption :=
  ⟨OptionHeader.thirdParty, .thirdParty address⟩

/-- `PacketOption::prefer_failure` (src/src/types/option.rs, lines 44-49). -/
def PacketOption.preferFailure : PacketOption :=
  ⟨OptionHeader.preferFailure, .preferFailure⟩

/-- `PacketOption::size` (src/src/types/option.rs, lines 51-53):
4-byte header plus the payload size. -/
def PacketOption.size (o : PacketOption) : Nat := 4 + o.payload.size

-- ======================= request packets =======================

/-- `RequestPayload` (src/src/types/payloads/mod.rs, lines 128-132). -/
inductive RequestPayload where
  | map (p : MapRequestPayload)
  | peer (p : PeerRequestPayload)
  | announce
deriving DecidableEq, Repr

/-- `RequestPayload::size` (src/src/types/payloads/mod.rs, lines 136-142). -/
def RequestPayload.size : RequestPayload → Nat
  | .map _ => 36
  | .peer _ => 56
  | .announce => 0

/-- `RequestPacket` (src/src/types/request.rs lines 16-20 and
src/src/types/packet.rs lines 117-121). -/
structure RequestPacket where
  header : RequestHeader
  payload : RequestPayload
  options : List PacketOption
deriving DecidableEq, Repr

/-- `RequestPacket::size` (src/src/types/request.rs, lines 24-28):
header size plus payload size plus the sum of the option sizes. -/
def RequestPacket.size (r : RequestPacket) : Nat :=
  RequestHeader.SIZE + r.payload.size + (r.options.map PacketOption.size).sum

/-- `RequestPacket::bytes` (src/src/types/request.rs, lines 31-48): the
header bytes, then the payload bytes, then for each option its header bytes
followed by its payload bytes. -/
def RequestPacket.bytes (r : RequestPacket) : Bytes :=
  r.header.bytes ++
    (match r.payload with
     | .map p => p.bytes
     | .peer p => p.bytes
     | .announce => []) ++
    (r.options.map (fun o => o.header.bytes ++ o.payload.bytes)).flatten

/-- `RequestPacket::copy_to` (src/src/types/packet.rs, lines 140-161),
applied to a zeroed buffer of exactly `size` bytes: the header via
`copy_to`, the payload via `copy_to`, then each option payload is written
WITHOUT its 4-byte option header (the loop advances by `option.size()` but
only writes `option.payload`), so those four header bytes stay zero. -/
def RequestPacket.copyTo (r : RequestPacket) : Bytes :=
  r.header.copyTo ++
    (match r.payload with
     | .map p => p.copyTo
     | .peer p => p.copyTo
     | .announce => []) ++
    (r.options.map (fun o => [0, 0, 0, 0] ++ o.payload.bytes)).flatten

/-- `MapRequestPayload::new` (src/src/types/payloads/map_request.rs,
lines 76-91): a missing protocol defaults to Hopopt = 0. -/
def MapRequestPayload.new (nonce : Bytes) (protocol : Option Nat)
    (internal_port external_port : Nat) (external_addr : Bytes) : MapRequestPayload :=
  ⟨nonce, protocol.getD 0, internal_port, external_port, external_addr⟩

/-- `PeerRequestPayload::new` (src/src/types/payloads/peer_request.rs,
lines 56-75). -/
def PeerRequestPayload.new (nonce : Bytes) (protocol : Option Nat)
    (internal_port external_port : Nat) (external_addr : Bytes)
    (remote_port : Nat) (remote_addr : Bytes) : PeerRequestPayload :=
  ⟨nonce, protocol.getD 0, internal_port, external_port, external_addr,
    remote_port, remote_addr⟩

/-- `RequestPacket::map` from src/src/types/request.rs (lines 51-87): checks
that every option code is valid for the Map opcode and that the version is
at least 2; performs NO size check.  The stored header keeps the version as
passed (`RequestHeader::new`). -/
def RequestPacket.mapR (version lifetime : Nat) (internal_address : Bytes)
    (nonce : Bytes) (protocol : Option Nat) (internal_port external_port : Nat)
    (external_address : Bytes) (options : List PacketOption) :
    Except ParsingError RequestPacket :=
  match options.find? (fun o => !OpCode.map.validOption o.header.code) with
  | some o => .error (.invalidOption .map o.header.code)
  | none =>
      if version < 2 then .error (.versionNotSupported version)
      else
        .ok ⟨⟨version, .map, lifetime, internal_address⟩,
          .map (MapRequestPayload.new nonce protocol internal_port
            external_port external_address), options⟩

/-- `RequestPacket::peer` from src/src/types/request.rs (lines 90-130). -/
def RequestPacket.peerR (version lifetime : Nat) (internal_address : Bytes)
    (nonce : Bytes) (protocol : Option Nat) (internal_port external_port : Nat)
    (external_address : Bytes) (remote_port : Nat) (remote_address : Bytes)
    (options : List PacketOption) : Except ParsingError RequestPacket :=
  match options.find? (fun o => !OpCode.peer.validOption o.header.code) with
  | some o => .error (.invalidOption .peer o.header.code)
  | none =>
      if version < 2 then .error (.versionNotSupported version)
      else
        .ok ⟨⟨version, .peer, lifetime, internal_address⟩,
          .peer (PeerRequestPayload.new nonce protocol internal_port
            external_port external_address remote_port remote_address), options⟩

/-- `RequestPacket::announce` from src/src/types/request.rs (lines 133-139):
opcode Announce, lifetime 0, no options, version stored as passed. -/
def RequestPacket.announceR (version : Nat) (address : Bytes) : RequestPacket :=
  ⟨⟨version, .announce, 0, address⟩, .announce, []⟩

/-- `RequestPacket::check_size` (src/src/types/packet.rs, lines 125-130):
fails with `PacketTooBig` when the packet size exceeds
`MAX_PACKET_SIZE` = 1100. -/
def RequestPacket.checkSize (r : RequestPacket) : Except ParsingError RequestPacket :=
  if r.size > 1100 then .error (.packetTooBig r.size) else .ok r

/-- `RequestPacket::map` from src/src/types/packet.rs (lines 164-195):
checks the option codes against the Map opcode and the version, builds the
packet with `RequestHeader::map` (which stores version 2 regardless of the
argument), and finally applies `check_size`. -/
def RequestPacket.mapP (version lifetime : Nat) (internal_addr : Bytes)
    (nonce : Bytes) (protocol : Option Nat) (internal_port external_port : Nat)
    (external_addr : Bytes) (options : List PacketOption) :
    Except ParsingError RequestPacket :=
  match options.find? (fun o => !OpCode.map.validOption o.header.code) with
  | some o => .error (.invalidOption .map o.header.code)
  | none =>
      if version < 2 then .error (.versionNotSupported version)
      else
        RequestPacket.checkSize
          ⟨⟨2, .map, lifetime, internal_addr⟩,
            .map (MapRequestPayload.new nonce protocol internal_port
              external_port external_addr), options⟩

/-- `RequestPacket::peer` from src/src/types/packet.rs (lines 198-237):
NOTE the source checks the option codes against `OpCode::Map`, not Peer
(line 214); builds the packet with `RequestHeader::peer` (version forced
to 2) and applies `check_size`. -/
def RequestPacket.peerP (version lifetime : Nat) (internal_addr : Bytes)
    (nonce : Bytes) (protocol : Option Nat) (internal_port external_port : Nat)
    (external_addr : Bytes) (remote_port : Nat) (remote_addr : Bytes)
    (options : List PacketOption) : Except ParsingError RequestPacket :=
  match options.find? (fun o => !OpCode.map.validOption o.header.code) with
  | some o => .error (.invalidOption .map o.header.code)
  | none =>
      if version < 2 then .error (.versionNotSupported version)
      else
        RequestPacket.checkSize
          ⟨⟨2, .peer, lifetime, internal_addr⟩,
            .peer (PeerRequestPayload.new nonce protocol internal_port
              external_port external_addr remote_port remote_addr), options⟩

-- ======================= response decoding =======================

/-- `ResponseHeader` (src/src/types/headers/response.rs, lines 69-75).
The result code is kept as its discriminant (0 = Success). -/
structure ResponseHeader where
  version : Nat
  opcode : OpCode
  result : Nat
  lifetime : Nat
  epoch : Nat
deriving DecidableEq, Repr

/-- `ResponseHeaderSlice::try_from` (src/src/types/headers/response.rs,
lines 142-169) combined with the `Parsable::parse` accessors (lines 90-139):
at least 24 bytes, version byte at least 2, R bit set, a known opcode in the
low 7 bits of byte 1, a known result code in byte 3.  On a short slice the
source reports `InvalidSliceLength(ResponseHeader::SIZE)`, i.e. 24. -/
def decodeResponseHeader (s : Bytes) : Option (Except ParsingError ResponseHeader) :=
  if s.length < 24 then some (.error (.invalidSliceLength 24))
  else
    match s[0]?, s[1]?, s[3]? with
    | some b0, some b1, some b3 =>
        if b0 < 2 then some (.error (.versionNotSupported b0))
        else if b1 / 128 % 2 = 0 then some (.error .notAResponse)
        else
          match OpCode.ofByte (b1 % 128) with
          | none => some (.error (.notAnOpCode (b1 % 128)))
          | some opcode =>
              if !isResultCode b3 then some (.error (.notAResultCode b3))
              else
                match readU32 s 4, readU32 s 8 with
                | some lt, some ep => some (.ok ⟨b0, opcode, b3, lt, ep⟩)
                | _, _ => none
    | _, _, _ => none

/-- `MapResponsePayload` (src/src/types/payloads/map_response.rs,
lines 27-33).  The external address is kept as its 16 received octets
(the source's `.true_form()` only changes the Rust-level representation of
an IPv4-mapped address). -/
structure MapResponsePayload where
  nonce : Bytes
  protocol : Nat
  internal_port : Nat
  external_port : Nat
  external_addr : Bytes
deriving DecidableEq, Repr

/-- `MapResponsePayloadSlice::try_from` (src/src/types/payloads/
map_response.rs, lines 86-101) with the parse accessors (lines 44-84):
at least 36 bytes and a known protocol number at byte 12; nonce at 0..12,
internal port at 16..18, external port at 18..20, address at 20..36. -/
def decodeMapResponsePayload (s : Bytes) : Option (Except ParsingError MapResponsePayload) :=
  if s.length < 36 then some (.error (.invalidSliceLength 36))
  else
    match s[12]? with
    | none => none
    | some pb =>
        if !isProtocolNumber pb then some (.error (.notAProtocolNumber pb))
        else
          match readU16 s 16, readU16 s 18 with
          | some ip, some ep => some (.ok ⟨s.take 12, pb, ip, ep, readAddr s 20⟩)
          | _, _ => none

/-- `PeerResponsePayload` (src/src/types/payloads/peer_response.rs,
lines 75-83). -/
structure PeerResponsePayload where
  nonce : Bytes
  protocol : Nat
  internal_port : Nat
  external_port : Nat
  external_addr : Bytes
  remote_port : Nat
  remote_addr : Bytes
deriving DecidableEq, Repr

/-- `PeerResponsePayloadSlice::try_from` (src/src/types/payloads/
peer_response.rs, lines 157-170) with the parse accessors (lines 97-139):
at least 56 bytes and a known protocol number at byte 12; remote port at
36..38, remote address at 40..56. -/
def decodePeerResponsePayload (s : Bytes) : Option (Except ParsingError PeerResponsePayload) :=
  if s.length < 56 then some (.error (.invalidSliceLength 56))
  else
    match s[12]? with
    | none => none
    | some pb =>
        if !isProtocolNumber pb then some (.error (.notAProtocolNumber pb))
        else
          match readU16 s 16, readU16 s 18, readU16 s 36 with
          | some ip, some ep, some rp =>
              some (.ok ⟨s.take 12, pb, ip, ep, readAddr s 20, rp, readAddr s 40⟩)
          | _, _, _ => none

/-- `OptionHeaderSlice::try_from` (src/src/types/headers/option.rs,
lines 115-151) with the parse accessors: at least 4 bytes (otherwise
`InvalidSliceLength(OptionHeader::SIZE)` = 4), a known option code, and the
declared length equal to the known payload size of that code (on mismatch
the source reports the EXPECTED size in `InvalidOptionLength`). -/
def decodeOptionHeader (s : Bytes) : Option (Except ParsingError OptionHeader) :=
  if s.length < 4 then some (.error (.invalidSliceLength 4))
  else
    match s[0]? with
    | none => none
    | some b0 =>
        match OptionCode.ofByte b0 with
        | none => some (.error (.notAnOptionCode b0))
        | some code =>
            match readU16 s 2 with
            | none => none
            | some len =>
                match code with
                | .filter =>
                    if len ≠ 20 then some (.error (.invalidOptionLength .filter 20))
                    else some (.ok ⟨code, len⟩)
                | .preferFailure =>
                    if len ≠ 0 then some (.error (.invalidOptionLength .preferFailure 0))
                    else some (.ok ⟨code, len⟩)
                | .thirdParty =>
                    if len ≠ 16 then some (.error (.invalidOptionLength .thirdParty 16))
                    else some (.ok ⟨code, len⟩)

/-- `FilterOptionPayloadSlice::try_from` (src/src/types/payloads/
filter_option.rs, lines 117-139) with the parse accessors: at least
20 bytes; when the prefix byte is below 96 and the address bytes 4..16 of
the option (offsets 4..14 zero, 14 and 15 equal to 0xff) denote an
IPv4-mapped IPv6 address, fail with `InvalidPrefix`. -/
def decodeFilterOptionPayload (s : Bytes) : Option (Except ParsingError OptionPayload) :=
  if s.length < 20 then some (.error (.invalidSliceLength 20))
  else
    match s[1]?, s[14]?, s[15]? with
    | some b1, some b14, some b15 =>
        if b1 < 96 ∧ (∀ i ∈ List.range 10, s.getD (4 + i) 0 = 0) ∧ b14 = 255 ∧ b15 = 255 then
          some (.error (.invalidPrefix b1))
        else
          match readU16 s 2 with
          | none => none
          | some rp => some (.ok (.filter b1 rp (readAddr s 4)))
    | _, _, _ => none

/-- `ThirdPartyOptionPayloadSlice::try_from` (src/src/types/payloads/
third_party_option.rs, lines 78-95) with its parse accessor. -/
def decodeThirdPartyOptionPayload (s : Bytes) : Option (Except ParsingError OptionPayload) :=
  if s.length < 16 then some (.error (.invalidSliceLength 16))
  else some (.ok (.thirdParty (s.take 16)))

/-- `PacketOptionSlice::try_from` (src/src/types/mod.rs, lines 128-150):
parse the option header, then the payload indicated by the code from the
bytes after the 4-byte header. -/
def decodePacketOption (s : Bytes) : Option (Except ParsingError PacketOption) :=
  match decodeOptionHeader s with
  | none => none
  | some (.error e) => some (.error e)
  | some (.ok h) =>
      match
        (match h.code with
         | .filter => decodeFilterOptionPayload (s.drop 4)
         | .thirdParty => decodeThirdPartyOptionPayload (s.drop 4)
         | .preferFailure => some (.ok .preferFailure)) with
      | none => none
      | some (.error e) => some (.error e)
      | some (.ok p) => some (.ok ⟨h, p⟩)

/-- The option loop of `ResponsePacketSlice::try_from` (src/src/types/mod.rs,
lines 315-326): while bytes remain, parse one option, reject an option code
that is not valid for the packet opcode, advance by the option size. -/
def decodeResponseOptions (opcode : OpCode) (rest : Bytes) :
    Option (Except ParsingError (List PacketOption)) :=
  if _hr : rest.length = 0 then some (.ok [])
  else
    match decodePacketOption rest with
    | none => none
    | some (.error e) => some (.error e)
    | some (.ok opt) =>
        if !opcode.validOption opt.header.code then
          some (.error (.invalidOption opcode opt.header.code))
        else
          match decodeResponseOptions opcode (rest.drop opt.size) with
          | none => none
          | some (.error e) => some (.error e)
          | some (.ok opts) => some (.ok (opt :: opts))
termination_by rest.length
decreasing_by
  simp only [List.length_drop, PacketOption.size]
  omega

/-- `ResponsePayload` (src/src/types/payloads/mod.rs, lines 205-209). -/
inductive ResponsePayload where
  | map (p : MapResponsePayload)
  | peer (p : PeerResponsePayload)
  | announce
deriving DecidableEq, Repr

/-- `ResponsePayloadSlice::size` (src/src/types/payloads/mod.rs,
lines 233-239). -/
def ResponsePayload.size : ResponsePayload → Nat
  | .map _ => 36
  | .peer _ => 56
  | .announce => 0

/-- `ResponsePacket` (src/src/types/response.rs, lines 13-17). -/
structure ResponsePacket where
  header : ResponseHeader
  payload : ResponsePayload
  options : List PacketOption
deriving DecidableEq, Repr

/-- The payload step of `ResponsePacketSlice::try_from` (src/src/types/mod.rs,
lines 305-311): the opcode-specific payload decoded from byte 24 on. -/
def decodeResponsePayload (opcode : OpCode) (s : Bytes) :
    Option (Except ParsingError ResponsePayload) :=
  match opcode with
  | .map =>
      match decodeMapResponsePayload (s.drop 24) with
      | none => none
      | some (.error e) => some (.error e)
      | some (.ok p) => some (.ok (ResponsePayload.map p))
  | .peer =>
      match decodePeerResponsePayload (s.drop 24) with
      | none => none
      | some (.error e) => some (.error e)
      | some (.ok p) => some (.ok (ResponsePayload.peer p))
  | .announce => some (.ok ResponsePayload.announce)

/-- `ResponsePacketSlice::try_from` (src/src/types/mod.rs, lines 296-333)
assembled: header, payload, then the option loop on the remaining bytes. -/
def decodeResponse (s : Bytes) : Option (Except ParsingError ResponsePacket) :=
  match decodeResponseHeader s with
  | none => none
  | some (.error e) => some (.error e)
  | some (.ok h) =>
      match decodeResponsePayload h.opcode s with
      | none => none
      | some (.error e) => some (.error e)
      | some (.ok payload) =>
          match decodeResponseOptions h.opcode (s.drop (24 + payload.size)) with
          | none => none
          | some (.error e) => some (.error e)
          | some (.ok options) => some (.ok ⟨h, payload, options⟩)

-- ======================= §4.1 matching predicate =======================

/-- `impl PartialEq<RequestPacket> for ResponsePacket`
(src/src/types/packet.rs, lines 315-352): opcode and version must agree;
Announce matches Announce; a Map response matches on nonce, internal port
and protocol (response protocol 0 = Hopopt meaning "all"); a Peer response
matches on nonce, protocol, internal port, remote address and port, and
either an equal external port or a requested external port of 0. -/
def responseMatchesRequest (resp : ResponsePacket) (req : RequestPacket) : Bool :=
  (match resp.payload, req.payload with
   | .announce, .announce => true
   | .map res, .map rq =>
       (res.protocol == rq.protocol || res.protocol == 0) &&
       res.internal_port == rq.internal_port &&
       res.nonce == rq.nonce
   | .peer res, .peer rq =>
       res.protocol == rq.protocol &&
       (res.external_port == rq.external_port || rq.external_port == 0) &&
       res.internal_port == rq.internal_port &&
       res.nonce == rq.nonce &&
       res.remote_addr == rq.remote_addr &&
       res.remote_port == rq.remote_port
   | _, _ => false) &&
  resp.header.opcode == req.header.opcode &&
  resp.header.version == req.header.version

-- ======================= service state =======================

/-- `State` (src/src/state.rs, lines 42-60).  An error keeps the result-code
discriminant. -/
inductive State where
  | requested
  | starting (n : Nat)
  | updating (n : Nat) (lifetime : Nat)
  | running
  | error (code : Nat)
  | expired
  | revoked
  | dropped
deriving DecidableEq, Repr

/-- The terminal states named by the specification (`Error`, `Expired`,
`Revoked`, `Dropped`): a record in one of them is finished. -/
def State.isTerminal : State → Bool
  | .error _ => true
  | .expired => true
  | .revoked => true
  | .dropped => true
  | _ => false

/-- `RequestType` (src/src/handle.rs, lines 130-134): `Once`, `Repeat(n)`
(constructor `rep`), `KeepAlive`. -/
inductive RequestType where
  | once
  | rep (n : Nat)
  | keepAlive
deriving DecidableEq, Repr

/-- The observable state of one `Delay` (src/src/event.rs, lines 128-158)
together with its signalling channel: `senderHeld` is whether the handle
still holds the `Option<Sender<()>>`, `sent` whether a unit was sent on the
channel, `receiverAlive` whether the timer thread is still sleeping (its
`Receiver` not yet dropped). -/
structure Delay where
  senderHeld : Bool
  sent : Bool
  receiverAlive : Bool
deriving DecidableEq, Repr

/-- A freshly armed delay (`Delay::by`): the handle holds the sender,
nothing was sent, the timer thread sleeps. -/
def Delay.armed : Delay := ⟨true, false, true⟩

/-- `Delay::ignore` (src/src/event.rs, lines 149-157): `take` the sender
out of the Option and send a unit on it; returns `true` only when the
sender was still held and the send succeeded (receiver still alive). -/
def Delay.ignore (d : Delay) : Bool × Delay :=
  if d.senderHeld then
    if d.receiverAlive then (true, ⟨false, true, d.receiverAlive⟩)
    else (false, ⟨false, d.sent, d.receiverAlive⟩)
  else (false, d)

/-- Dropping the `Delay` handle: the `Sender` inside the Option is
deallocated; nothing is sent on the channel. -/
def Delay.dropHandle (d : Delay) : Delay := ⟨false, d.sent, d.receiverAlive⟩

/-- The firing decision of the timer thread (src/src/event.rs, lines
137-142): after the sleep it sends `Event::Delay` exactly when
`rx.try_recv().is_err()`, i.e. when no unit was received — both an empty
channel (sender still held) and a disconnected one (sender dropped) are
`Err`. -/
def Delay.fires (d : Delay) : Bool := !d.sent

-- ======================= epoch validation (C2) =======================

/-- Result of `Client::validate_epoch`: the returned boolean, the stored
epoch snapshot afterwards, and whether `server_lost_state` (recovery) was
invoked. -/
structure EpochResult where
  valid : Bool
  stored : Option (Nat × Nat)
  recovery : Bool
deriving DecidableEq, Repr

/-- `Client::validate_epoch` (src/src/client.rs, lines 213-232).  `prev` is
the stored `(epoch, instant)` pair, `currEpoch` the received epoch,
`clientDelta` the elapsed whole seconds since the previous snapshot, `now`
the receipt instant (instants are abstract naturals).  All subtractions are
the saturating u32 subtractions of the source. -/
def validate_epoch (prev : Option (Nat × Nat)) (currEpoch clientDelta now : Nat) :
    EpochResult :=
  match prev with
  | some (epoch, _) =>
      if currEpoch < epoch - 1 ∨
          (let serverDelta := currEpoch - epoch
           clientDelta + 2 < serverDelta - serverDelta / 16 ∨
           serverDelta + 2 < clientDelta - clientDelta / 16) then
        ⟨false, prev, true⟩
      else
        ⟨true, some (currEpoch, now), false⟩
  | none => ⟨true, some (currEpoch, now), false⟩

/-- `Epoch::validate_epoch` (src/src/core/epoch.rs, lines 24-71): the pure
core variant, given the previous epoch and the client-side elapsed time. -/
def Epoch.validate_epoch (curr previous elapsed : Nat) : Bool :=
  if curr < previous - 1 then false
  else
    let client_delta := elapsed
    let server_delta := curr - previous
    !(client_delta + 2 < server_delta - server_delta / 16 ∨
      server_delta + 2 < client_delta - client_delta / 16)

-- ======================= mapping records and recovery (C3) =======================

/-- `MappingState` (src/src/state.rs, lines 65-76): the shared `AtomicState`,
the armed delay, the parsed request, the cached serialized bytes, and the
request kind.  The alert channel to the handle is not represented; `set_state`
writes the state cell. -/
structure MappingState where
  state : State
  delay : Delay
  request : RequestPacket
  buffer : Option Bytes
  kind : RequestType
deriving Repr

/-- The bytes a mapping sends when its request is (re)transmitted: the cached
buffer when present, otherwise `request.bytes()` (src/src/client.rs,
lines 247-253 pattern). -/
def MappingState.sendBytes (m : MappingState) : Bytes :=
  match m.buffer with
  | some b => b
  | none => m.request.bytes

/-- `Client::server_lost_state` (src/src/client.rs, lines 236-266): ignore
the delay of EVERY mapping, re-send the serialized bytes of EVERY mapping
(caching them), then set EVERY mapping's state to `Starting(0)` and arm a
fresh IRT delay.  Returns the new table and the list of buffers sent, in
table order.  No mapping is skipped: the three loops run over all entries. -/
def server_lost_state (maps : List MappingState) :
    List MappingState × List Bytes :=
  let maps1 := maps.map (fun m => { m with delay := (Delay.ignore m.delay).2 })
  let sent := maps1.map MappingState.sendBytes
  let maps2 := maps1.map (fun m => { m with buffer := some m.sendBytes })
  let maps3 := maps2.map (fun m => { m with state := State.starting 0, delay := Delay.armed })
  (maps3, sent)

-- ======================= peer response matching (C4) =======================

/-- The per-record predicate of the `Event::PeerResponse` scan
(src/src/client.rs, lines 687-710): the record's request must have the Peer
opcode (the `filter` step), its payload must be a Peer payload (the source
panics otherwise; builders never produce such a record), and nonce,
internal port and protocol must agree with the response payload, and the
zip of the stored option list with the response option list must be
pointwise equal (`iter().zip(...).all(..)` — the comparison stops at the
shorter list).  Neither the record's state nor the remote/external fields
are consulted. -/
def peerScanMatch (m : MappingState) (payload : PeerResponsePayload)
    (options : List PacketOption) : Bool :=
  m.request.header.opcode == OpCode.peer &&
  (match m.request.payload with
   | .peer p =>
       p.nonce == payload.nonce &&
       p.internal_port == payload.internal_port &&
       p.protocol == payload.protocol &&
       ((m.request.options.zip options).all (fun ab => ab.1 == ab.2))
   | _ => false)

/-- The indexed linear scan (`iter().enumerate()...find_map`) of
`Event::PeerResponse`. -/
def findPeerIdx (maps : List MappingState) (payload : PeerResponsePayload)
    (options : List PacketOption) (i : Nat) : Option Nat :=
  match maps with
  | [] => none
  | m :: rest =>
      if peerScanMatch m payload options then some i
      else findPeerIdx rest payload options (i + 1)

/-- `Event::PeerResponse` owner lookup (src/src/client.rs, lines 687-710). -/
def findPeerMapping (maps : List MappingState) (payload : PeerResponsePayload)
    (options : List PacketOption) : Option Nat :=
  findPeerIdx maps payload options 0

-- ======================= success handling (C5) =======================

/-- `Client::jitter_lifetime` (src/src/client.rs, lines 316-334), with the
f32 arithmetic carried out over the rationals and the `rng.gen::<f32>()`
draw passed in as `u` (a value in [0, 1)).  For `times = 0` the factor is
1/2 + u/8; otherwise it is (d-1)/d + u/e with d = 4 << times and
e = 8 << times.  A result below 4 seconds means "no more renewals". -/
def jitter_lifetime (lifetime : Nat) (times : Nat) (u : ℚ) : Option ℚ :=
  let factor : ℚ :=
    if times = 0 then 1 / 2 + u * (1 / 8)
    else
      let d : Nat := 4 <<< times
      let e : Nat := 8 <<< times
      ((d : ℚ) - 1) / (d : ℚ) + u / (e : ℚ)
  let ftime := (lifetime : ℚ) * factor
  if ftime < 4 then none else some ftime

/-- The `ResultCode::Success` arm of `Event::MapResponse`
(src/src/client.rs, lines 637-669), for the mapping already found: ignore
its delay; when the stored request lifetime differs from the response
lifetime overwrite it (with NO clamp) and invalidate the cached buffer; set
the state to Running; choose the next wait — the full response lifetime in
seconds for `Once` and `Repeat(0)`, otherwise `jitter_lifetime(lifetime, 0)`
with 0 as the fallback when it yields None — and arm the delay.  Returns the
updated mapping and the chosen wait (in seconds, as a rational). -/
def handleMapSuccess (m : MappingState) (lt : Nat) (u : ℚ) : MappingState × ℚ :=
  let m1 := { m with delay := (Delay.ignore m.delay).2 }
  let m2 :=
    if m1.request.header.lifetime ≠ lt then
      { m1 with
          request :=
            { m1.request with header := { m1.request.header with lifetime := lt } },
          buffer := none }
    else m1
  let m3 := { m2 with state := State.running }
  let wait : ℚ :=
    match m3.kind with
    | .once => (lt : ℚ)
    | .rep 0 => (lt : ℚ)
    | .keepAlive => (jitter_lifetime lt 0 u).getD 0
    | .rep _ => (jitter_lifetime lt 0 u).getD 0
  ({ m3 with delay := Delay.armed }, wait)

-- ======================= nonce generation (C10) =======================

/-- `Client::generate_nonce` (src/src/client.rs, lines 205-210): a 12-byte
buffer whose byte 0 is the `u8` argument and whose bytes 1..12 are filled
from the RNG (`rng.fill_bytes(&mut buf[1..])`, modelled as a byte stream). -/
def generate_nonce (id : Nat) (rng : Nat → Nat) : Bytes :=
  id :: (List.range 11).map (fun i => rng i % 256)

/-- The call sites (src/src/client.rs, lines 397 and 453):
`self.generate_nonce(idx as u8)` — the mapping's slot index truncated to
8 bits. -/
def nonceForIndex (idx : Nat) (rng : Nat → Nat) : Bytes :=
  generate_nonce (idx % 256) rng

-- ======================= helper lemmas =======================

theorem readU16_isSome (s : Bytes) (i : Nat) (h : i + 1 < s.length) :
    ∃ v, readU16 s i = some v := by
  unfold readU16
  rw [List.getElem?_eq_getElem (by omega), List.getElem?_eq_getElem h]
  exact ⟨_, rfl⟩

theorem readU32_isSome (s : Bytes) (i : Nat) (h : i + 3 < s.length) :
    ∃ v, readU32 s i = some v := by
  unfold readU32
  rw [List.getElem?_eq_getElem (by omega), List.getElem?_eq_getElem (by omega),
    List.getElem?_eq_getElem (by omega), List.getElem?_eq_getElem h]
  exact ⟨_, rfl⟩

-- ======================= C2: epoch validation =======================

/-- C2.  The epoch validator (`Client::validate_epoch`): with no stored
epoch the response is VALID and `(e_now, t_now)` is stored; with a stored
`(e_prev, t_prev)` it is VALID exactly when `e_now ≥ e_prev - 1`
(saturating) and both tolerance inequalities
`client_delta + 2 ≥ server_delta - server_delta/16` and
`server_delta + 2 ≥ client_delta - client_delta/16` hold (with
`server_delta = e_now - e_prev` saturating); on VALID the stored epoch is
overwritten with `(e_now, t_now)`, on INVALID the stored epoch is left
unchanged, recovery is triggered and the response is not processed
further (`run` only handles a response when the validator returns true). -/
theorem epoch_validator_spec (prev : Option (Nat × Nat)) (e cd now : Nat) :
    (prev = none → validate_epoch prev e cd now = ⟨true, some (e, now), false⟩) ∧
    (∀ ep tp, prev = some (ep, tp) →
      ((validate_epoch prev e cd now).valid = true ↔
        (ep - 1 ≤ e ∧ (e - ep) - (e - ep) / 16 ≤ cd + 2 ∧
          cd - cd / 16 ≤ (e - ep) + 2)) ∧
      ((validate_epoch prev e cd now).valid = true →
        (validate_epoch prev e cd now).stored = some (e, now) ∧
        (validate_epoch prev e cd now).recovery = false) ∧
      ((validate_epoch prev e cd now).valid = false →
        (validate_epoch prev e cd now).stored = some (ep, tp) ∧
        (validate_epoch prev e cd now).recovery = true)) := by
  constructor
  · rintro rfl
    rfl
  · rintro ep tp rfl
    simp only [validate_epoch]
    split
    · rename_i hcond
      refine ⟨?_, by simp, by simp⟩
      simp only [Bool.false_eq_true, false_iff]
      omega
    · rename_i hcond
      refine ⟨?_, by simp, by simp⟩
      simp only [true_iff]
      omega

/-- Witness for `epoch_validator_spec`, at the spec's scenario 4 input:
stored epoch 100, new epoch 40 after 10 client seconds is INVALID, leaves
the stored epoch unchanged and triggers recovery. -/
theorem epoch_validator_spec_witness :
    (validate_epoch (some (100, 0)) 40 10 7).valid = false ∧
    (validate_epoch (some (100, 0)) 40 10 7).stored = some (100, 0) ∧
    (validate_epoch (some (100, 0)) 40 10 7).recovery = true := by
  have h := (epoch_validator_spec (some (100, 0)) 40 10 7).2 100 0 rfl
  have hv : (validate_epoch (some (100, 0)) 40 10 7).valid = false := by decide
  exact ⟨hv, (h.2.2 hv).1, (h.2.2 hv).2⟩

-- ======================= C10: nonce generation =======================

/-- C10.  Every nonce the service builds (`generate_nonce(idx as u8)`) is
12 bytes long, its first byte is the mapping's slot index reduced mod 256,
and only the remaining 11 bytes come from the RNG stream; consequently two
mappings whose indices agree mod 256 always share that deterministic first
byte, whatever their RNG draws. -/
theorem nonce_first_byte_is_index (idx jdx : Nat) (rng rng2 : Nat → Nat) :
    (nonceForIndex idx rng).length = 12 ∧
    (nonceForIndex idx rng).head? = some (idx % 256) ∧
    (nonceForIndex idx rng).tail = (List.range 11).map (fun i => rng i % 256) ∧
    (idx % 256 = jdx % 256 →
      (nonceForIndex idx rng).head? = (nonceForIndex jdx rng2).head?) := by
  refine ⟨by simp [nonceForIndex, generate_nonce], rfl, rfl, ?_⟩
  intro h
  simp [nonceForIndex, generate_nonce, h]

/-- Witness for `nonce_first_byte_is_index`: indices 1 and 257 agree mod
256, so the two nonces share their first byte even under different RNGs. -/
theorem nonce_first_byte_is_index_witness :
    (nonceForIndex 1 (fun _ => 7)).head? = (nonceForIndex 257 (fun i => i + 3)).head? :=
  (nonce_first_byte_is_index 1 257 (fun _ => 7) (fun i => i + 3)).2.2.2 (by decide)

-- ======================= C8: delay cancellation =======================

/-- C8 counterexample.  Dropping the handle of an armed delay does NOT
cancel it: nothing is ever sent on the signalling channel, so at wake time
`rx.try_recv()` yields `Err(Disconnected)` and the timer still delivers its
`DelayFired` event — contradicting the claim that a delay whose handle has
been dropped never delivers one. -/
theorem dropped_delay_still_fires :
    Delay.fires (Delay.dropHandle Delay.armed) = true ∧
    (Delay.dropHandle Delay.armed).senderHeld = false := by
  decide

/-- C8 as amended.  Cancellation is idempotent: after one `ignore` the
sender is gone, so a second `ignore` returns false and changes nothing.
But dropping the handle has no cancelling effect: the firing decision is
unchanged by `dropHandle`, an armed delay fires, and only a successful
`ignore` (which sends the unit) suppresses the single `DelayFired`. -/
theorem delay_cancellation_spec (d : Delay) :
    ((Delay.ignore (Delay.ignore d).2).1 = false ∧
      (Delay.ignore (Delay.ignore d).2).2 = (Delay.ignore d).2) ∧
    Delay.fires (Delay.dropHandle d) = Delay.fires d ∧
    Delay.fires Delay.armed = true ∧
    Delay.fires (Delay.ignore Delay.armed).2 = false := by
  refine ⟨?_, rfl, rfl, rfl⟩
  cases d with
  | mk sh st ra =>
      cases sh <;> cases st <;> cases ra <;> simp [Delay.ignore]

-- ======================= C3: recovery over the table =======================

/-- A 16-byte all-zero address. -/
def addr16zero : Bytes := List.replicate 16 0

/-- A 12-byte all-zero nonce. -/
def nonce12zero : Bytes := List.replicate 12 0

/-- A mapping record already in the terminal state `Dropped`, with cached
request bytes `[9, 9]` (the concrete failing input for recovery). -/
def droppedRecord : MappingState :=
  ⟨State.dropped, Delay.armed, RequestPacket.announceR 2 addr16zero,
    some [9, 9], RequestType.once⟩

/-- C3 evaluation at the failing input.  Recovery (`server_lost_state`) on a
table holding a single record in the terminal state `Dropped` nevertheless
re-sends that record's serialized bytes and resets its state to
`Starting(0)` — the source iterates over ALL mappings, never filtering out
terminal ones — contradicting the claim that terminal records are neither
resent nor modified. -/
theorem recovery_resends_terminal_record :
    (server_lost_state [droppedRecord]).2 = [[9, 9]] ∧
    (server_lost_state [droppedRecord]).1.map (fun m => m.state) =
      [State.starting 0] ∧
    State.isTerminal State.dropped = true := by
  decide

-- ======================= C4: response-to-mapping matching =======================

/-- A stored Peer request: nonce 0, protocol 6, internal port 100,
external port 0, remote port 999. -/
def c4request : RequestPacket :=
  ⟨⟨2, OpCode.peer, 60, addr16zero⟩,
    .peer ⟨nonce12zero, 6, 100, 0, addr16zero, 999, addr16zero⟩, []⟩

/-- A mapping record holding `c4request` in the TERMINAL state `Error(2)`. -/
def c4record : MappingState :=
  ⟨State.error 2, Delay.armed, c4request, none, RequestType.keepAlive⟩

/-- A Peer response payload agreeing with `c4request` on nonce, protocol
and internal port but with a DIFFERENT remote port (1000 instead of 999). -/
def c4response : PeerResponsePayload :=
  ⟨nonce12zero, 6, 100, 5555, addr16zero, 1000, addr16zero⟩

/-- C4 counterexample.  The service's Peer scan matches `c4response` to the
record `c4record` (returning index 0) even though the record is in a
terminal state and the remote ports disagree; the §4.1 predicate of
packet.rs (`responseMatchesRequest`) says the same response does NOT match
that request.  This contradicts the claim that the scan applies the §4.1
predicate and skips terminal records. -/
theorem peer_scan_matches_terminal_record :
    findPeerMapping [c4record] c4response [] = some 0 ∧
    State.isTerminal c4record.state = true ∧
    c4response.remote_port = 1000 ∧
    (match c4request.payload with
     | .peer p => p.remote_port
     | _ => 0) = 999 ∧
    responseMatchesRequest ⟨⟨2, OpCode.peer, 0, 60, 10⟩, .peer c4response, []⟩
      c4request = false := by
  decide

/-- Auxiliary: what a successful scan result guarantees. -/
theorem findPeerIdx_mem (maps : List MappingState) (payload : PeerResponsePayload)
    (options : List PacketOption) :
    ∀ k i, findPeerIdx maps payload options k = some i →
      ∃ j mi, i = k + j ∧ maps[j]? = some mi ∧ peerScanMatch mi payload options = true := by
  induction maps with
  | nil => intro k i h; simp [findPeerIdx] at h
  | cons m rest ih =>
      intro k i h
      by_cases hm : peerScanMatch m payload options
      · refine ⟨0, m, ?_, by simp, hm⟩
        simp [findPeerIdx, hm] at h
        omega
      · simp [findPeerIdx, hm] at h
        obtain ⟨j, mi, hji, hget, hmatch⟩ := ih (k + 1) i h
        exact ⟨j + 1, mi, by omega, by simpa using hget, hmatch⟩

/-- C4 as amended.  The Peer-response owner lookup is a linear scan over the
records whose request carries the Peer opcode, matching on nonce, protocol,
internal port and pointwise equality of the zipped option lists ONLY: the
record's state is never consulted (a terminal record can match) and the
response's remote address, remote port and external port are never
consulted; when the scan returns an index, the record there satisfies
exactly that predicate. -/
theorem peer_scan_spec (maps : List MappingState) (m : MappingState)
    (payload : PeerResponsePayload) (options : List PacketOption)
    (st : State) (rp ep : Nat) (ra : Bytes) (i : Nat) :
    (peerScanMatch { m with state := st } payload options =
      peerScanMatch m payload options) ∧
    (peerScanMatch m
      { payload with remote_port := rp, remote_addr := ra, external_port := ep }
      options = peerScanMatch m payload options) ∧
    (findPeerMapping maps payload options = some i →
      ∃ mi, maps[i]? = some mi ∧ peerScanMatch mi payload options = true ∧
        mi.request.header.opcode = OpCode.peer) := by
  refine ⟨rfl, rfl, ?_⟩
  intro h
  obtain ⟨j, mi, hji, hget, hmatch⟩ := findPeerIdx_mem maps payload options 0 i h
  refine ⟨mi, by simpa [hji] using hget, hmatch, ?_⟩
  have := hmatch
  simp only [peerScanMatch, Bool.and_eq_true, beq_iff_eq] at this
  exact this.1

/-- Witness for `peer_scan_spec`, at the concrete counterexample record. -/
theorem peer_scan_spec_witness :
    ∃ mi, [c4record][0]? = some mi ∧ peerScanMatch mi c4response [] = true ∧
      mi.request.header.opcode = OpCode.peer :=
  (peer_scan_spec [c4record] c4record c4response [] State.running 0 0 [] 0).2.2
    (by decide)

-- ======================= C5: success response handling =======================

/-- A running-capable record: Map request with stored lifetime 10, cached
buffer, kind `Repeat(0)`. -/
def c5record : MappingState :=
  ⟨State.starting 0, Delay.armed,
    ⟨⟨2, OpCode.map, 10, addr16zero⟩, .map ⟨nonce12zero, 6, 100, 0, addr16zero⟩, []⟩,
    some [1], RequestType.rep 0⟩

/-- C5 counterexample.  On a success response with lifetime 4294967295
(about 136 years) the handler stores that lifetime verbatim: there is no
24-hour (86400 s) sanity cap anywhere in the branch, contradicting the
claim that the stored lifetime is clamped. -/
theorem success_lifetime_not_clamped :
    (handleMapSuccess c5record 4294967295 0).1.request.header.lifetime =
      4294967295 ∧
    ¬ (handleMapSuccess c5record 4294967295 0).1.request.header.lifetime
        ≤ 86400 := by
  decide

/-- `jitter_lifetime` at its first attempt (`times = 0`): the factor is
1/2 + u/8. -/
theorem jitter_first_attempt (lifetime : Nat) (u : ℚ) :
    jitter_lifetime lifetime 0 u =
      (if (lifetime : ℚ) * (1 / 2 + u * (1 / 8)) < 4 then none
       else some ((lifetime : ℚ) * (1 / 2 + u * (1 / 8)))) := by
  simp [jitter_lifetime]

/-- C5 as amended.  The success arm of `Event::MapResponse` cancels the
mapping's delay, sets the state to Running, overwrites the stored request
lifetime with the response lifetime AS IS (no sanity cap), invalidates the
cached bytes exactly when the lifetime changed, and arms a next wait equal
to the full response lifetime for kinds `Once` and `Repeat(0)`, and
otherwise to the renewal-formula value — which, on this first attempt, lies
in [L/2, 5L/8] unless the formula yields "no more renewals" (below 4 s),
in which case the armed wait is 0.  The assigned external address and port
reach the caller through an `Assigned` alert; they are not written back
into the request. -/
theorem map_success_spec (m : MappingState) (lt : Nat) (u : ℚ)
    (h0 : 0 ≤ u) (h1 : u ≤ 1) :
    (handleMapSuccess m lt u).1.state = State.running ∧
    (handleMapSuccess m lt u).1.request.header.lifetime = lt ∧
    (handleMapSuccess m lt u).1.buffer =
      (if m.request.header.lifetime = lt then m.buffer else none) ∧
    ((m.kind = RequestType.once ∨ m.kind = RequestType.rep 0) →
      (handleMapSuccess m lt u).2 = (lt : ℚ)) ∧
    ((m.kind = RequestType.keepAlive ∨ (∃ k, m.kind = RequestType.rep (k + 1))) →
      (handleMapSuccess m lt u).2 = 0 ∨
      ((lt : ℚ) / 2 ≤ (handleMapSuccess m lt u).2 ∧
        8 * (handleMapSuccess m lt u).2 ≤ 5 * (lt : ℚ))) := by
  have hlt : (0 : ℚ) ≤ (lt : ℚ) := Nat.cast_nonneg lt
  refine ⟨?_, ?_, ?_, ?_, ?_⟩
  · by_cases hl : m.request.header.lifetime = lt <;> simp [handleMapSuccess, hl]
  · by_cases hl : m.request.header.lifetime = lt <;> simp [handleMapSuccess, hl]
  · by_cases hl : m.request.header.lifetime = lt <;> simp [handleMapSuccess, hl]
  · rintro (hk | hk) <;>
      by_cases hl : m.request.header.lifetime = lt <;>
        simp [handleMapSuccess, hl, hk]
  · intro hk
    have hbound : (jitter_lifetime lt 0 u).getD 0 = 0 ∨
        ((lt : ℚ) / 2 ≤ (jitter_lifetime lt 0 u).getD 0 ∧
          8 * (jitter_lifetime lt 0 u).getD 0 ≤ 5 * (lt : ℚ)) := by
      rw [jitter_first_attempt]
      split
      · exact Or.inl rfl
      · right
        constructor <;> · simp only [Option.getD_some]; nlinarith
    have hw : (handleMapSuccess m lt u).2 = (jitter_lifetime lt 0 u).getD 0 := by
      rcases hk with hk | ⟨k, hk⟩ <;>
        by_cases hl : m.request.header.lifetime = lt <;>
          simp [handleMapSuccess, hl, hk]
    rw [hw]
    exact hbound

/-- Witness for `map_success_spec`: concrete record, response lifetime 60,
jitter draw 1/2 — the armed wait is 60·(1/2 + 1/16) = 33.75 s, inside
[30, 37.5]. -/
theorem map_success_spec_witness :
    (handleMapSuccess c5record 60 (1/2)).1.state = State.running ∧
    ((0 : ℚ) ≤ 1/2) := by
  refine ⟨(map_success_spec c5record 60 (1/2) (by norm_num) (by norm_num)).1,
    by norm_num⟩

-- ======================= C7: filter option prefix =======================

/-- The IPv4-mapped IPv6 form of 1.2.3.4 (`::ffff:1.2.3.4`). -/
def mappedAddr1234 : Bytes :=
  [0, 0, 0, 0, 0, 0, 0, 0, 0, 0, 255, 255, 1, 2, 3, 4]

/-- The MAP request of scenario 6 carrying a FilterOption with prefix 90 on
the IPv4-mapped remote address ::ffff:1.2.3.4. -/
def c7request90 : Except ParsingError RequestPacket :=
  RequestPacket.mapR 2 60 addr16zero nonce12zero (some 6) 6000 0 addr16zero
    [PacketOption.filter 90 0 mappedAddr1234]

/-- C7 counterexample.  ENCODING the MAP request with the prefix-90 filter
does NOT fail: `PacketOption::filter` performs no prefix check, the builder
accepts the option (Filter is legal for Map) and the packet serializes to
24 + 36 + 24 bytes.  The prefix is only rejected on the DECODE side. -/
theorem filter_prefix_not_checked_on_encode :
    c7request90 =
      Except.ok ⟨⟨2, OpCode.map, 60, addr16zero⟩,
        .map ⟨nonce12zero, 6, 6000, 0, addr16zero⟩,
        [PacketOption.filter 90 0 mappedAddr1234]⟩ ∧
    (match c7request90 with
     | .ok pkt => pkt.bytes.length
     | .error _ => 0) = 84 := by
  exact ⟨rfl, rfl⟩

/-- C7 as amended.  Building and encoding a MAP request with a FilterOption
succeeds whatever the prefix; it is the filter-option PARSER that rejects a
prefix of 90 on the IPv4-mapped remote address ::ffff:1.2.3.4 with
`InvalidPrefix(90)`, while prefix 96 parses successfully; in both cases the
filter option payload serializes to exactly 20 bytes. -/
theorem filter_prefix_decode_rule :
    (∃ pkt, c7request90 = Except.ok pkt) ∧
    decodeFilterOptionPayload (filterOptionBytes 90 0 mappedAddr1234) =
      some (.error (.invalidPrefix 90)) ∧
    decodeFilterOptionPayload (filterOptionBytes 96 0 mappedAddr1234) =
      some (.ok (.filter 96 0 mappedAddr1234)) ∧
    (filterOptionBytes 90 0 mappedAddr1234).length = 20 ∧
    (filterOptionBytes 96 0 mappedAddr1234).length = 20 := by
  refine ⟨⟨_, rfl⟩, rfl, rfl, rfl, rfl⟩

-- ======================= C1: encode/decode round trip =======================

/-- The IPv4-mapped IPv6 form of 192.168.1.101. -/
def clientAddrBytes : Bytes :=
  [0, 0, 0, 0, 0, 0, 0, 0, 0, 0, 255, 255, 192, 168, 1, 101]

/-- The scenario-1 MAP request: internal port 6000, lifetime 120, TCP (6),
zero nonce, suggested external port 0 and unspecified external address, no
options, built by the validated builder `RequestPacket::map`. -/
def c1request : Except ParsingError RequestPacket :=
  RequestPacket.mapR 2 120 clientAddrBytes nonce12zero (some 6) 6000 0
    addr16zero []

/-- The packet the builder accepts. -/
def c1packet : RequestPacket :=
  ⟨⟨2, OpCode.map, 120, clientAddrBytes⟩,
    .map ⟨nonce12zero, 6, 6000, 0, addr16zero⟩, []⟩

/-- C1 evaluation at the failing input.  The builder accepts the request;
`RequestPacket::bytes` encodes the payload with the internal port at bytes
16..18 (the RFC layout, `17 70` = 6000 there); but `MapRequestPayload`'s
`TryFrom` in base.rs reads the EXTERNAL port from 16..18 and the internal
port from 18..20 — against the RFC diagram printed directly above it — so
decoding the encoded bytes returns the two ports swapped:
internal 0 and external 6000 instead of internal 6000 and external 0.
Hence decode(encode(req)) ≠ req on this builder-accepted value. -/
theorem roundtrip_swaps_ports :
    c1request = Except.ok c1packet ∧
    (RequestPacket.bytes c1packet).length = 60 ∧
    ((RequestPacket.bytes c1packet).drop 40).take 4 = [23, 112, 0, 0] ∧
    MapRequestPayload.tryFrom ((RequestPacket.bytes c1packet).drop 24) =
      some (.ok ⟨nonce12zero, 6, 0, 6000, addr16zero⟩) ∧
    (0 : Nat) ≠ 6000 := by
  refine ⟨rfl, rfl, rfl, rfl, by decide⟩

-- ======================= C6: packet size bound =======================

/-- Address well-formedness of an option: any carried address consists of
16 octets (guaranteed by the Rust `Ipv6Addr` type). -/
def PacketOption.wfAddr (o : PacketOption) : Prop :=
  match o.payload with
  | .filter _ _ a => a.length = 16
  | .thirdParty a => a.length = 16
  | .preferFailure => True

theorem option_bytes_length (o : PacketOption) (h : o.wfAddr) :
    (o.header.bytes ++ o.payload.bytes).length = o.size := by
  cases o with
  | mk header payload =>
      cases payload <;>
        simp_all [PacketOption.wfAddr, PacketOption.size, OptionPayload.size,
          OptionPayload.bytes, OptionHeader.bytes, filterOptionBytes, u16be]

theorem options_bytes_length (os : List PacketOption)
    (h : ∀ o ∈ os, o.wfAddr) :
    ((os.map (fun o => o.header.bytes ++ o.payload.bytes)).flatten).length =
      (os.map PacketOption.size).sum := by
  induction os with
  | nil => rfl
  | cons o rest ih =>
      have ho := option_bytes_length o (h o (by simp))
      have ih2 := ih (fun x hx => h x (by simp [hx]))
      simp only [List.map_cons, List.flatten_cons, List.length_append,
        List.sum_cons]
      simp only [List.length_append] at ho
      omega

/-- Length of the `RequestPacket::bytes` encoding, under the address and
nonce lengths the Rust types guarantee. -/
theorem request_bytes_length (r : RequestPacket)
    (haddr : r.header.address.length = 16)
    (hpay : match r.payload with
      | .map p => p.nonce.length = 12 ∧ p.external_addr.length = 16
      | .peer p => p.nonce.length = 12 ∧ p.external_addr.length = 16 ∧
          p.remote_addr.length = 16
      | .announce => True)
    (hopt : ∀ o ∈ r.options, o.wfAddr) :
    r.bytes.length = r.size := by
  cases r with
  | mk header payload options =>
      cases payload <;>
        simp_all [RequestPacket.bytes, RequestPacket.size, RequestHeader.bytes,
          RequestHeader.SIZE, RequestPayload.size, MapRequestPayload.bytes,
          PeerRequestPayload.bytes, u16be, u32be,
          options_bytes_length options hopt] <;>
        omega

/-- C6.  Whenever the size-checked builders `RequestPacket::map` /
`RequestPacket::peer` (src/src/types/packet.rs, which end in `check_size`)
return Ok, the encoded byte buffer of the accepted packet is at most
1100 bytes long. -/
theorem builder_packet_size_bound (version lifetime : Nat) (ia nonce : Bytes)
    (protocol : Option Nat) (ip ep : Nat) (ea : Bytes) (rp : Nat) (ra : Bytes)
    (opts : List PacketOption) (pkt pkt2 : RequestPacket)
    (hia : ia.length = 16) (hn : nonce.length = 12) (hea : ea.length = 16)
    (hra : ra.length = 16) (hopts : ∀ o ∈ opts, o.wfAddr) :
    (RequestPacket.mapP version lifetime ia nonce protocol ip ep ea opts =
        Except.ok pkt → pkt.bytes.length ≤ 1100) ∧
    (RequestPacket.peerP version lifetime ia nonce protocol ip ep ea rp ra opts =
        Except.ok pkt2 → pkt2.bytes.length ≤ 1100) := by
  constructor
  · intro h
    unfold RequestPacket.mapP at h
    split at h
    · exact absurd h (by simp)
    · split at h
      · exact absurd h (by simp)
      · unfold RequestPacket.checkSize at h
        split at h
        · exact absurd h (by simp)
        · rename_i hsize
          obtain rfl : pkt = _ := (Except.ok.inj h).symm
          rw [request_bytes_length _ hia (by exact ⟨hn, hea⟩) hopts]
          omega
  · intro h
    unfold RequestPacket.peerP at h
    split at h
    · exact absurd h (by simp)
    · split at h
      · exact absurd h (by simp)
      · unfold RequestPacket.checkSize at h
        split at h
        · exact absurd h (by simp)
        · rename_i hsize
          obtain rfl : pkt2 = _ := (Except.ok.inj h).symm
          rw [request_bytes_length _ hia (by exact ⟨hn, hea, hra⟩) hopts]
          omega

/-- Witness for `builder_packet_size_bound`: the concrete scenario-1 map
request (with a filter option added) is accepted and its encoding is within
the 1100-byte bound. -/
theorem builder_packet_size_bound_witness :
    RequestPacket.mapP 2 120 clientAddrBytes nonce12zero (some 6) 6000 0
        addr16zero [PacketOption.filter 96 0 mappedAddr1234] =
      Except.ok
        ⟨⟨2, OpCode.map, 120, clientAddrBytes⟩,
          .map ⟨nonce12zero, 6, 6000, 0, addr16zero⟩,
          [PacketOption.filter 96 0 mappedAddr1234]⟩ ∧
    (RequestPacket.bytes
        ⟨⟨2, OpCode.map, 120, clientAddrBytes⟩,
          .map ⟨nonce12zero, 6, 6000, 0, addr16zero⟩,
          [PacketOption.filter 96 0 mappedAddr1234]⟩).length ≤ 1100 := by
  constructor
  · rfl
  · exact (builder_packet_size_bound 2 120 clientAddrBytes nonce12zero (some 6)
      6000 0 addr16zero 0 addr16zero [PacketOption.filter 96 0 mappedAddr1234]
      _ ⟨⟨2, OpCode.peer, 120, clientAddrBytes⟩,
        .peer ⟨nonce12zero, 6, 6000, 0, addr16zero, 0, addr16zero⟩,
        [PacketOption.filter 96 0 mappedAddr1234]⟩
      (by decide) (by decide) (by decide) (by decide)
      (by intro o ho; simp at ho; subst ho; exact rfl)).1 rfl

-- ======================= C9: decoder totality =======================

theorem decodeResponseHeader_isSome (s : Bytes) :
    (decodeResponseHeader s).isSome := by
  unfold decodeResponseHeader
  split
  · simp
  · rename_i hlen
    push_neg at hlen
    rw [List.getElem?_eq_getElem (by omega), List.getElem?_eq_getElem (by omega),
      List.getElem?_eq_getElem (by omega)]
    dsimp only
    split
    · simp
    · split
      · simp
      · rcases h4 : OpCode.ofByte (s[1] % 128) with _ | opcode
        · simp
        · obtain ⟨v4, hv4⟩ := readU32_isSome s 4 (by omega)
          obtain ⟨v8, hv8⟩ := readU32_isSome s 8 (by omega)
          rw [hv4, hv8]
          dsimp only
          split <;> simp

theorem decodeMapResponsePayload_isSome (s : Bytes) :
    (decodeMapResponsePayload s).isSome := by
  unfold decodeMapResponsePayload
  split
  · simp
  · rename_i hlen
    push_neg at hlen
    rw [List.getElem?_eq_getElem (by omega)]
    dsimp only
    split
    · simp
    · obtain ⟨v16, hv16⟩ := readU16_isSome s 16 (by omega)
      obtain ⟨v18, hv18⟩ := readU16_isSome s 18 (by omega)
      rw [hv16, hv18]
      simp

theorem decodePeerResponsePayload_isSome (s : Bytes) :
    (decodePeerResponsePayload s).isSome := by
  unfold decodePeerResponsePayload
  split
  · simp
  · rename_i hlen
    push_neg at hlen
    rw [List.getElem?_eq_getElem (by omega)]
    dsimp only
    split
    · simp
    · obtain ⟨v16, hv16⟩ := readU16_isSome s 16 (by omega)
      obtain ⟨v18, hv18⟩ := readU16_isSome s 18 (by omega)
      obtain ⟨v36, hv36⟩ := readU16_isSome s 36 (by omega)
      rw [hv16, hv18, hv36]
      simp

theorem decodeOptionHeader_isSome (s : Bytes) :
    (decodeOptionHeader s).isSome := by
  unfold decodeOptionHeader
  split
  · simp
  · rename_i hlen
    push_neg at hlen
    rw [List.getElem?_eq_getElem (by omega)]
    dsimp only
    rcases hc : OptionCode.ofByte s[0] with _ | code
    · simp
    · obtain ⟨v2, hv2⟩ := readU16_isSome s 2 (by omega)
      rw [hv2]
      dsimp only
      split <;> · split <;> simp

theorem decodeFilterOptionPayload_isSome (s : Bytes) :
    (decodeFilterOptionPayload s).isSome := by
  unfold decodeFilterOptionPayload
  split
  · simp
  · rename_i hlen
    push_neg at hlen
    rw [List.getElem?_eq_getElem (by omega), List.getElem?_eq_getElem (by omega),
      List.getElem?_eq_getElem (by omega)]
    dsimp only
    split
    · simp
    · obtain ⟨v2, hv2⟩ := readU16_isSome s 2 (by omega)
      rw [hv2]
      simp

theorem decodeThirdPartyOptionPayload_isSome (s : Bytes) :
    (decodeThirdPartyOptionPayload s).isSome := by
  unfold decodeThirdPartyOptionPayload
  split <;> simp

theorem decodePacketOption_isSome (s : Bytes) :
    (decodePacketOption s).isSome := by
  unfold decodePacketOption
  rcases hh : decodeOptionHeader s with _ | eh
  · exact absurd hh (Option.isSome_iff_ne_none.mp (decodeOptionHeader_isSome s))
  · rcases eh with e | h
    · simp
    · dsimp only
      cases hc : h.code
      all_goals dsimp only
      · rcases hp : decodeThirdPartyOptionPayload (s.drop 4) with _ | ep
        · exact absurd hp
            (Option.isSome_iff_ne_none.mp (decodeThirdPartyOptionPayload_isSome (s.drop 4)))
        · cases ep <;> simp
      · simp
      · rcases hp : decodeFilterOptionPayload (s.drop 4) with _ | ep
        · exact absurd hp
            (Option.isSome_iff_ne_none.mp (decodeFilterOptionPayload_isSome (s.drop 4)))
        · cases ep <;> simp

theorem decodeResponseOptions_isSome_aux (opcode : OpCode) :
    ∀ n (rest : Bytes), rest.length ≤ n →
      (decodeResponseOptions opcode rest).isSome := by
  intro n
  induction n with
  | zero =>
      intro rest h
      have h0 : rest.length = 0 := by omega
      unfold decodeResponseOptions
      simp [h0]
  | succ n ih =>
      intro rest hlen
      unfold decodeResponseOptions
      split
      · simp
      · rename_i hne
        rcases ho : decodePacketOption rest with _ | eo
        · exact absurd ho (Option.isSome_iff_ne_none.mp (decodePacketOption_isSome rest))
        · rcases eo with e | opt
          · simp
          · dsimp only
            split
            · simp
            · have hlt : (rest.drop opt.size).length ≤ n := by
                simp only [List.length_drop, PacketOption.size]
                omega
              have hrec := ih (rest.drop opt.size) hlt
              rcases hr : decodeResponseOptions opcode (rest.drop opt.size) with _ | er
              · exact absurd hr (Option.isSome_iff_ne_none.mp hrec)
              · cases er <;> simp

theorem decodeResponseOptions_isSome (opcode : OpCode) (rest : Bytes) :
    (decodeResponseOptions opcode rest).isSome :=
  decodeResponseOptions_isSome_aux opcode rest.length rest le_rfl

theorem decodeResponsePayload_isSome (opcode : OpCode) (s : Bytes) :
    (decodeResponsePayload opcode s).isSome := by
  unfold decodeResponsePayload
  cases opcode
  · simp
  · rcases hp : decodeMapResponsePayload (s.drop 24) with _ | ep
    · exact absurd hp
        (Option.isSome_iff_ne_none.mp (decodeMapResponsePayload_isSome (s.drop 24)))
    · cases ep <;> simp
  · rcases hp : decodePeerResponsePayload (s.drop 24) with _ | ep
    · exact absurd hp
        (Option.isSome_iff_ne_none.mp (decodePeerResponsePayload_isSome (s.drop 24)))
    · cases ep <;> simp

/-- C9.  Total safety of response decoding: for EVERY input byte list,
whatever its length and content, `ResponsePacketSlice::try_from` (with its
header, payload and option sub-parsers, and the field accessors used to
parse the result) returns either a parsed packet or a `ParsingError` —
never the `none` that models a panic or out-of-bounds access.  Termination
of the option loop is established by the definition itself (each parsed
option consumes at least its 4-byte header). -/
theorem response_decoding_total (s : Bytes) : (decodeResponse s).isSome := by
  unfold decodeResponse
  rcases hh : decodeResponseHeader s with _ | eh
  · exact absurd hh (Option.isSome_iff_ne_none.mp (decodeResponseHeader_isSome s))
  · rcases eh with e | h
    · simp
    · dsimp only
      rcases hp : decodeResponsePayload h.opcode s with _ | ep
      · exact absurd hp
          (Option.isSome_iff_ne_none.mp (decodeResponsePayload_isSome h.opcode s))
      · rcases ep with e | payload
        · simp
        · dsimp only
          rcases hos : decodeResponseOptions h.opcode (s.drop (24 + payload.size)) with _ | eos
          · exact absurd hos
              (Option.isSome_iff_ne_none.mp
                (decodeResponseOptions_isSome h.opcode (s.drop (24 + payload.size))))
          · cases eos <;> simp
